import Mathlib

/-!
Verification development for the Tauri process supervisor in
`src/frontend/src-tauri/src/lib.rs` (Document-Q-A repository).

The file embeds, as pure Lean functions:
  * the output-relay loop (the `tauri::async_runtime::spawn` task reading
    `CommandEvent`s until `Terminated`),
  * the release-mode setup path (data-directory resolution, directory
    creation, sidecar resolution, spawn, handle storage),
  * the debug-mode setup path,
  * the window-close handler (`stop`), and
  * a small trace semantics for the handle slot.
-/

/-- Log levels used by the `log` crate macros in lib.rs. -/
inductive LogLevel
  | info
  | warn
  | error
  deriving DecidableEq, Repr

/-- One leveled log line, as handed to the logging sink. -/
structure LogEntry where
  level : LogLevel
  msg : String
  deriving DecidableEq, Repr

/-- The `tauri_plugin_shell::process::CommandEvent` variants as matched by the
relay loop in lib.rs. The enum is non-exhaustive in Rust, so the loop has a
final wildcard arm; `other` stands for any variant not named in the match. -/
inductive CommandEvent
  | Stdout (line : String)
  | Stderr (line : String)
  | Error (err : String)
  | Terminated (payload : String)
  | other
  deriving DecidableEq, Repr

/-- The log entry the relay loop emits for one event (lib.rs lines 83-98):
stdout at info, stderr at warn, runtime errors at error, termination at info,
and nothing for the wildcard arm. Rust's byte-to-string lossy conversion and
format interpolation are modelled by string concatenation. -/
def relayLog : CommandEvent → Option LogEntry
  | .Stdout line => some ⟨.info, "[Backend] " ++ line⟩
  | .Stderr line => some ⟨.warn, "[Backend] " ++ line⟩
  | .Error err => some ⟨.error, "[Backend] Error: " ++ err⟩
  | .Terminated payload => some ⟨.info, "[Backend] 进程退出: " ++ payload⟩
  | .other => none

/-- The relay task (lib.rs lines 81-100): consumes the incoming event sequence
in order, logging each event via `relayLog`, and `break`s as soon as a
`Terminated` event is consumed. Returns the list of events consumed and the
log lines emitted, in order. -/
def relay : List CommandEvent → List CommandEvent × List LogEntry
  | [] => ([], [])
  | .Stdout l :: rest =>
      (.Stdout l :: (relay rest).1,
       (relayLog (.Stdout l)).toList ++ (relay rest).2)
  | .Stderr l :: rest =>
      (.Stderr l :: (relay rest).1,
       (relayLog (.Stderr l)).toList ++ (relay rest).2)
  | .Error e :: rest =>
      (.Error e :: (relay rest).1,
       (relayLog (.Error e)).toList ++ (relay rest).2)
  | .Terminated p :: _ =>
      ([.Terminated p], (relayLog (.Terminated p)).toList)
  | .other :: rest =>
      (.other :: (relay rest).1,
       (relayLog CommandEvent.other).toList ++ (relay rest).2)

example :
    relay [CommandEvent.Stdout "ready", CommandEvent.Terminated "exit", CommandEvent.Stdout "late"]
      = ([CommandEvent.Stdout "ready", CommandEvent.Terminated "exit"],
         [⟨LogLevel.info, "[Backend] ready"⟩, ⟨LogLevel.info, "[Backend] 进程退出: exit"⟩]) := by
  decide

/-- Platforms distinguished by the `cfg!(target_os = ...)` checks in lib.rs:
Windows, macOS, and every other target. -/
inductive Platform
  | windows
  | macosTarget
  | otherTarget
  deriving DecidableEq, Repr

/-- The host environment read by the release-mode setup path:
`platform` is the compile target, `appdata` is `std::env::var("APPDATA")`
(`none` when unset or not valid unicode), `home` is `dirs::home_dir()`,
`sidecarOk` is whether `shell.sidecar("backend")` returns `Ok`,
`spawnOk` is whether `sidecar.spawn()` returns `Ok` (with `spawnErr` the
error text otherwise), and `createDirOk` is whether
`std::fs::create_dir_all` returns `Ok`. -/
structure Env where
  platform : Platform
  appdata : Option String
  home : Option String
  sidecarOk : Bool
  spawnOk : Bool
  spawnErr : String
  createDirOk : Bool
  deriving DecidableEq, Repr

/-- `PathBuf::join`, abstracted to separator-joined path strings. -/
def pjoin (a b : String) : String := a ++ "/" ++ b

/-- The user data directory computed in lib.rs lines 44-62. `none` means the
computation reaches `dirs::home_dir().unwrap()` with no home directory, i.e.
it panics. On Windows, `APPDATA` is read first; when it is unavailable the
code falls back to `home_dir().unwrap().join("AppData\\Roaming")`. -/
def dataDir (e : Env) : Option String :=
  match e.platform with
  | .windows =>
      match e.appdata with
      | some a => some (pjoin a "Document-QA")
      | none =>
          match e.home with
          | some h => some (pjoin (pjoin h "AppData\\Roaming") "Document-QA")
          | none => none
  | .macosTarget =>
      match e.home with
      | some h =>
          some (pjoin (pjoin (pjoin h "Library") "Application Support") "Document-QA")
      | none => none
  | .otherTarget =>
      match e.home with
      | some h => some (pjoin h ".document-qa")
      | none => none

/-- Observable steps taken by the setup path, in program order. -/
inductive SetupAction
  | logged (lv : LogLevel) (msg : String)
  | createdDir (dir : String)
  | spawned (cwd : String)
  | storedHandle
  deriving DecidableEq, Repr

/-- Result of running the setup closure body: either the thread panicked with
the given message, or it completed having taken the listed actions. -/
inductive Outcome
  | panicked (msg : String)
  | completed (actions : List SetupAction)
  deriving DecidableEq, Repr

/-- The release-mode (`#[cfg(not(debug_assertions))]`) setup body, lib.rs
lines 38-105: log, compute the data directory (`unwrap` panics when it is
unavailable), `create_dir_all(&data_dir).ok()` (result discarded — note the
branch does not read `e.createDirOk`), resolve the sidecar with
`.expect("无法找到后端可执行文件")` (panics on failure), spawn it with the data
directory as working directory, and on `Ok` store the child handle after an
info log, while on `Err` log the failure at error level and store nothing. -/
def startRelease (e : Env) : Outcome :=
  let pre := [SetupAction.logged .info "生产模式：启动打包的后端服务"]
  match dataDir e with
  | none => .panicked "called Option::unwrap on a None value"
  | some d =>
      let pre := pre ++ [SetupAction.createdDir d]
      if e.sidecarOk then
        if e.spawnOk then
          .completed (pre ++
            [SetupAction.spawned d, SetupAction.logged .info "后端服务已启动", SetupAction.storedHandle])
        else
          .completed (pre ++
            [SetupAction.spawned d, SetupAction.logged .error ("启动后端服务失败: " ++ e.spawnErr)])
      else
        .panicked "无法找到后端可执行文件"

/-- The debug-mode (`#[cfg(debug_assertions)]`) setup body, lib.rs lines
31-36: a single info log, no directory work, no spawn, no handle stored. -/
def startDebug : List SetupAction := [SetupAction.logged .info "开发模式：使用 Python 运行后端"]

/-- The setup callback as a whole: the compile-time `debug_assertions` flag
selects which of the two bodies runs. -/
def setup (debugAssertions : Bool) (e : Env) : Outcome :=
  if debugAssertions then .completed startDebug else startRelease e

/-- Contents of the `BackendProcess(Mutex<Option<CommandChild>>)` slot after
setup: a handle is present exactly when the setup path executed the store
`*state.0.lock().unwrap() = Some(child)`. -/
def slotAfter : Outcome → Option Nat
  | .panicked _ => none
  | .completed acts => if SetupAction.storedHandle ∈ acts then some 0 else none

/-- Result of one run of the window-close handler. -/
structure StopResult where
  slot : Option Nat
  log : List LogEntry
  kills : List Nat
  deriving DecidableEq, Repr

/-- The `on_window_event` CloseRequested handler, lib.rs lines 110-124:
log the close notice, `take()` the handle out of the slot, and only if a
handle was present call `kill()` on it, logging success at info and failure
at error level. `killOk` is whether `child.kill()` returns `Ok`. -/
def stop (slot : Option Nat) (killOk : Bool) (killErr : String) : StopResult :=
  let closeLog : LogEntry := ⟨.info, "窗口关闭，正在终止后端服务..."⟩
  match slot with
  | none => ⟨none, [closeLog], []⟩
  | some child =>
      if killOk then
        ⟨none, [closeLog, ⟨.info, "后端服务已终止"⟩], [child]⟩
      else
        ⟨none, [closeLog, ⟨.error, "终止后端服务失败: " ++ killErr⟩], [child]⟩

/-- Supervisor slot state for sequences of start/stop operations; `next`
numbers freshly spawned children. -/
structure SupSt where
  slot : Option Nat
  next : Nat
  deriving DecidableEq, Repr

/-- An operation on the slot: a start attempt (which stores the fresh handle
by assignment exactly when the spawn succeeded) or a stop. -/
inductive SOp
  | sstart (spawnOk : Bool)
  | sstop
  deriving DecidableEq, Repr

/-- Slot effect of one operation: a successful start assigns
`Some(child)`; a failed start stores nothing; stop `take()`s the slot. -/
def applySOp (st : SupSt) : SOp → SupSt
  | .sstart ok => if ok then ⟨some st.next, st.next + 1⟩ else st
  | .sstop => ⟨none, st.next⟩

/-- State after running a sequence of operations from the initial state
(`Mutex::new(None)`). -/
def runOps (ops : List SOp) : SupSt := ops.foldl applySOp ⟨none, 0⟩

/-- The handles currently stored in the slot. -/
def storedHandles (st : SupSt) : List Nat := st.slot.toList

/-! Helper lemmas shared by the claim theorems. -/

/-- Relay logs are exactly the per-event log entries of the consumed events,
in consumption order. -/
theorem relay_snd_eq_filterMap (evs : List CommandEvent) :
    (relay evs).2 = List.filterMap relayLog (relay evs).1 := by
  induction evs with
  | nil => rfl
  | cons e rest ih =>
    cases e <;> simp [relay, relayLog, List.filterMap_cons, ih]

/-- Before the first termination notice the relay recurses past every event,
and it stops exactly at the notice: events after it are irrelevant. -/
theorem relay_break_at_terminated (pre post : List CommandEvent) (p : String)
    (hpre : ∀ q, CommandEvent.Terminated q ∉ pre) :
    relay (pre ++ CommandEvent.Terminated p :: post)
      = relay (pre ++ [CommandEvent.Terminated p])
  ∧ (relay (pre ++ [CommandEvent.Terminated p])).1 = pre ++ [CommandEvent.Terminated p] := by
  induction pre with
  | nil => simp [relay]
  | cons e rest ih =>
    have hrest : ∀ q, CommandEvent.Terminated q ∉ rest := by
      intro q hq
      exact hpre q (List.mem_cons_of_mem _ hq)
    obtain ⟨ih1, ih2⟩ := ih hrest
    cases e with
    | Terminated q => exact absurd (List.mem_cons_self _ _) (hpre q)
    | Stdout l => exact ⟨by simp [relay, ih1], by simp [relay, ih2]⟩
    | Stderr l => exact ⟨by simp [relay, ih1], by simp [relay, ih2]⟩
    | Error er => exact ⟨by simp [relay, ih1], by simp [relay, ih2]⟩
    | other => exact ⟨by simp [relay, ih1], by simp [relay, ih2]⟩

/-- Any supervisor state stores at most one handle in its slot. -/
theorem storedHandles_length_le_one (st : SupSt) :
    (storedHandles st).length ≤ 1 := by
  cases h : st.slot <;> simp [storedHandles, h]

/-! Claim theorems. -/

/-- C4: relay log lines are the per-event entries of the consumed events in
arrival order, and once a termination notice is consumed the task ends: the
relay of a stream whose first notice is followed by further events equals the
relay of the stream cut right after the notice, and the consumed events are
exactly the preceding events plus the notice — nothing of that process
instance is consumed or logged after it. -/
theorem relay_order_and_termination (evs pre post : List CommandEvent) (p : String)
    (hpre : ∀ q, CommandEvent.Terminated q ∉ pre) :
    (relay evs).2 = List.filterMap relayLog (relay evs).1
  ∧ relay (pre ++ CommandEvent.Terminated p :: post)
      = relay (pre ++ [CommandEvent.Terminated p])
  ∧ (relay (pre ++ [CommandEvent.Terminated p])).1 = pre ++ [CommandEvent.Terminated p] :=
  ⟨relay_snd_eq_filterMap evs,
   (relay_break_at_terminated pre post p hpre).1,
   (relay_break_at_terminated pre post p hpre).2⟩

/-- Witness for relay_order_and_termination: one stdout line, a termination
notice, then a late event that is never consumed. -/
theorem relay_order_and_termination_witness :
    relay [CommandEvent.Stdout "ready", CommandEvent.Terminated "exit0", CommandEvent.Stdout "late"]
      = relay [CommandEvent.Stdout "ready", CommandEvent.Terminated "exit0"] :=
  (relay_order_and_termination [] [CommandEvent.Stdout "ready"] [CommandEvent.Stdout "late"]
    "exit0" (by intro q h; simp at h)).2.1

/-- C5: the log level of every relayed event is fixed by its variant:
stdout at info, stderr at warn, runtime error at error, termination at
info. -/
theorem relay_log_levels (l s er p : String) :
    (relayLog (CommandEvent.Stdout l)).map LogEntry.level = some LogLevel.info
  ∧ (relayLog (CommandEvent.Stderr s)).map LogEntry.level = some LogLevel.warn
  ∧ (relayLog (CommandEvent.Error er)).map LogEntry.level = some LogLevel.error
  ∧ (relayLog (CommandEvent.Terminated p)).map LogEntry.level = some LogLevel.info :=
  ⟨rfl, rfl, rfl, rfl⟩

/-- C10: an event matched only by the wildcard arm produces no log entry, and
the relay loop keeps consuming the subsequent events unchanged. -/
theorem unknown_event_ignored (rest : List CommandEvent) :
    relayLog CommandEvent.other = none
  ∧ (relay (CommandEvent.other :: rest)).2 = (relay rest).2
  ∧ (relay (CommandEvent.other :: rest)).1 = CommandEvent.other :: (relay rest).1 := by
  refine ⟨rfl, ?_, ?_⟩ <;> simp [relay, relayLog]

/-- C2: over every sequence of start/stop operations from the initial empty
slot, at most one handle is stored at every instant; a successful start
stores exactly the one fresh handle (assignment, not accumulation), a failed
start stores nothing, and stop empties the slot. -/
theorem slot_at_most_one_handle (ops : List SOp) (st : SupSt) :
    (storedHandles (runOps ops)).length ≤ 1
  ∧ storedHandles (applySOp st (SOp.sstart true)) = [st.next]
  ∧ storedHandles (applySOp st (SOp.sstart false)) = storedHandles st
  ∧ storedHandles (applySOp st SOp.sstop) = [] := by
  refine ⟨storedHandles_length_le_one _, ?_, ?_, ?_⟩ <;>
    simp [applySOp, storedHandles]

/-- C3: the close handler takes the handle out leaving the slot empty, so a
stop that finds the slot empty sends no kill signal and logs no kill success;
stop after stop degenerates to a stop on the empty slot, and a failed spawn
leaves the slot empty so the subsequent stop is that same no-op. The handler
is a total function, so no panic arises on the empty path. -/
theorem stop_take_and_noop (s : Option Nat) (k k2 : Bool) (er er2 : String) (e : Env) :
    (stop s k er).slot = none
  ∧ (stop none k er).kills = []
  ∧ LogEntry.mk LogLevel.info "后端服务已终止" ∉ (stop none k er).log
  ∧ stop (stop s k er).slot k2 er2 = stop none k2 er2
  ∧ slotAfter (startRelease { e with spawnOk := false }) = none := by
  refine ⟨?_, ?_, ?_, ?_, ?_⟩
  · cases s <;> cases k <;> rfl
  · rfl
  · have hlog : (stop none k er).log = [⟨LogLevel.info, "窗口关闭，正在终止后端服务..."⟩] := by
      cases k <;> rfl
    rw [hlog]
    decide
  · cases s <;> cases k <;> rfl
  · cases e with
    | mk p ad hm so sp se co =>
      cases hd : dataDir ⟨p, ad, hm, so, false, se, co⟩ <;> cases so <;>
        simp [startRelease, slotAfter, hd]

/-- C7: with debug_assertions set, setup runs only the debug body: every
action it takes is a log line, it spawns nothing, and the slot stays empty. -/
theorem debug_mode_startup_noop (e : Env) :
    setup true e = Outcome.completed startDebug
  ∧ (startDebug.all fun a =>
      match a with
      | SetupAction.logged _ _ => true
      | _ => false) = true
  ∧ slotAfter (setup true e) = none := by
  refine ⟨rfl, rfl, ?_⟩
  simp [setup, slotAfter, startDebug]

/-- When the data directory resolves and the sidecar resolves, the setup path
issues create_dir_all on the directory and then attempts the spawn with it as
working directory, whether or not the spawn itself succeeds. -/
theorem spawn_attempted (e : Env) (d : String) (hd : dataDir e = some d)
    (hs : e.sidecarOk = true) :
    ∃ rest, startRelease e = Outcome.completed
      ([SetupAction.logged LogLevel.info "生产模式：启动打包的后端服务",
        SetupAction.createdDir d, SetupAction.spawned d] ++ rest) := by
  cases hsp : e.spawnOk
  · exact ⟨[SetupAction.logged LogLevel.error ("启动后端服务失败: " ++ e.spawnErr)],
      by simp [startRelease, hd, hs, hsp]⟩
  · exact ⟨[SetupAction.logged LogLevel.info "后端服务已启动", SetupAction.storedHandle],
      by simp [startRelease, hd, hs, hsp]⟩

/-- C1 counterexample: in release mode with the backend sidecar unresolvable
(and everything else healthy), setup panics through the expect call instead
of logging a spawn error and continuing, refuting the claim that the
executable-resolution failure is reported without a panic. -/
theorem sidecar_unresolved_panics_cex :
    startRelease ⟨Platform.otherTarget, none, some "/home/user", false, true, "", true⟩
      = Outcome.panicked "无法找到后端可执行文件" := rfl

/-- C1 amended: when the OS-level spawn fails, the supervisor logs the
failure at error level, leaves the handle slot empty, and does not panic;
when the backend executable cannot be resolved, however, release startup
panics via the expect on the sidecar lookup. -/
theorem spawn_error_handling_amended (e : Env) (d : String) (hd : dataDir e = some d) :
    (e.sidecarOk = true → e.spawnOk = false →
        startRelease e = Outcome.completed
          [SetupAction.logged LogLevel.info "生产模式：启动打包的后端服务",
           SetupAction.createdDir d, SetupAction.spawned d,
           SetupAction.logged LogLevel.error ("启动后端服务失败: " ++ e.spawnErr)]
      ∧ slotAfter (startRelease e) = none)
  ∧ (e.sidecarOk = false →
        startRelease e = Outcome.panicked "无法找到后端可执行文件") := by
  constructor
  · intro hs hsp
    have hrun : startRelease e = Outcome.completed
        [SetupAction.logged LogLevel.info "生产模式：启动打包的后端服务",
         SetupAction.createdDir d, SetupAction.spawned d,
         SetupAction.logged LogLevel.error ("启动后端服务失败: " ++ e.spawnErr)] := by
      simp [startRelease, hd, hs, hsp]
    refine ⟨hrun, ?_⟩
    rw [hrun]
    simp [slotAfter]
  · intro hs
    simp [startRelease, hd, hs]

/-- Witness for spawn_error_handling_amended: a failed spawn on a generic
Unix-like host logs the error and stores no handle; an unresolvable sidecar
panics. -/
theorem spawn_error_handling_amended_witness :
    (startRelease ⟨Platform.otherTarget, none, some "/home/user", true, false, "io error", true⟩
        = Outcome.completed
            [SetupAction.logged LogLevel.info "生产模式：启动打包的后端服务",
             SetupAction.createdDir (pjoin "/home/user" ".document-qa"),
             SetupAction.spawned (pjoin "/home/user" ".document-qa"),
             SetupAction.logged LogLevel.error ("启动后端服务失败: " ++ "io error")]
      ∧ slotAfter (startRelease
            ⟨Platform.otherTarget, none, some "/home/user", true, false, "io error", true⟩) = none)
  ∧ startRelease ⟨Platform.otherTarget, none, some "/home/user", false, true, "", true⟩
      = Outcome.panicked "无法找到后端可执行文件" :=
  ⟨(spawn_error_handling_amended
      ⟨Platform.otherTarget, none, some "/home/user", true, false, "io error", true⟩
      (pjoin "/home/user" ".document-qa") rfl).1 rfl rfl,
   (spawn_error_handling_amended
      ⟨Platform.otherTarget, none, some "/home/user", false, true, "", true⟩
      (pjoin "/home/user" ".document-qa") rfl).2 rfl⟩

/-- C6: the working directory handed to the spawned child is the
platform-specific application-data directory — APPDATA/Document-QA on
Windows, home/Library/Application Support/Document-QA on macOS,
home/.document-qa elsewhere — and the setup path issues the
create-if-absent call on exactly that directory before attempting the
spawn with it as working directory. -/
theorem working_directory_resolution (e : Env) (a h d : String) :
    (e.platform = Platform.windows → e.appdata = some a →
        dataDir e = some (pjoin a "Document-QA"))
  ∧ (e.platform = Platform.macosTarget → e.home = some h →
        dataDir e = some (pjoin (pjoin (pjoin h "Library") "Application Support") "Document-QA"))
  ∧ (e.platform = Platform.otherTarget → e.home = some h →
        dataDir e = some (pjoin h ".document-qa"))
  ∧ (dataDir e = some d → e.sidecarOk = true →
        ∃ rest, startRelease e = Outcome.completed
          ([SetupAction.logged LogLevel.info "生产模式：启动打包的后端服务",
            SetupAction.createdDir d, SetupAction.spawned d] ++ rest)) := by
  refine ⟨?_, ?_, ?_, ?_⟩
  · intro hp ha
    simp [dataDir, hp, ha]
  · intro hp hh
    simp [dataDir, hp, hh]
  · intro hp hh
    simp [dataDir, hp, hh]
  · intro hd hs
    exact spawn_attempted e d hd hs

/-- Witness for working_directory_resolution: the three platform rules at
concrete environments, and the create-then-spawn order on the Windows one. -/
theorem working_directory_resolution_witness :
    dataDir ⟨Platform.windows, some "C:/Users/u/AppData/Roaming", none, true, true, "", true⟩
      = some (pjoin "C:/Users/u/AppData/Roaming" "Document-QA")
  ∧ dataDir ⟨Platform.macosTarget, none, some "/Users/u", true, true, "", true⟩
      = some (pjoin (pjoin (pjoin "/Users/u" "Library") "Application Support") "Document-QA")
  ∧ dataDir ⟨Platform.otherTarget, none, some "/home/u", true, true, "", true⟩
      = some (pjoin "/home/u" ".document-qa")
  ∧ ∃ rest,
      startRelease ⟨Platform.windows, some "C:/Users/u/AppData/Roaming", none, true, true, "", true⟩
        = Outcome.completed
            ([SetupAction.logged LogLevel.info "生产模式：启动打包的后端服务",
              SetupAction.createdDir (pjoin "C:/Users/u/AppData/Roaming" "Document-QA"),
              SetupAction.spawned (pjoin "C:/Users/u/AppData/Roaming" "Document-QA")] ++ rest) :=
  ⟨(working_directory_resolution
      ⟨Platform.windows, some "C:/Users/u/AppData/Roaming", none, true, true, "", true⟩
      "C:/Users/u/AppData/Roaming" "" "").1 rfl rfl,
   (working_directory_resolution
      ⟨Platform.macosTarget, none, some "/Users/u", true, true, "", true⟩
      "" "/Users/u" "").2.1 rfl rfl,
   (working_directory_resolution
      ⟨Platform.otherTarget, none, some "/home/u", true, true, "", true⟩
      "" "/home/u" "").2.2.1 rfl rfl,
   (working_directory_resolution
      ⟨Platform.windows, some "C:/Users/u/AppData/Roaming", none, true, true, "", true⟩
      "" "" (pjoin "C:/Users/u/AppData/Roaming" "Document-QA")).2.2.2 rfl rfl⟩

/-- C8: on Windows with APPDATA unavailable, the data directory falls back to
home joined with AppData\Roaming and then Document-QA; whenever no home
directory is available on the consulted path, the resolution yields nothing
and release startup panics through the unwrap. -/
theorem appdata_fallback_and_home_panic (e : Env) (h : String) :
    (e.platform = Platform.windows → e.appdata = none → e.home = some h →
        dataDir e = some (pjoin (pjoin h "AppData\\Roaming") "Document-QA"))
  ∧ (e.appdata = none → e.home = none → dataDir e = none)
  ∧ (dataDir e = none →
        startRelease e = Outcome.panicked "called Option::unwrap on a None value") := by
  refine ⟨?_, ?_, ?_⟩
  · intro hp ha hh
    simp [dataDir, hp, ha, hh]
  · intro ha hh
    cases hp : e.platform <;> simp [dataDir, hp, ha, hh]
  · intro hd
    simp [startRelease, hd]

/-- Witness for appdata_fallback_and_home_panic: the fallback on a concrete
Windows environment without APPDATA, and the panic when home is also
missing. -/
theorem appdata_fallback_and_home_panic_witness :
    dataDir ⟨Platform.windows, none, some "C:/Users/u", true, true, "", true⟩
      = some (pjoin (pjoin "C:/Users/u" "AppData\\Roaming") "Document-QA")
  ∧ startRelease ⟨Platform.windows, none, none, true, true, "", true⟩
      = Outcome.panicked "called Option::unwrap on a None value" :=
  ⟨(appdata_fallback_and_home_panic
      ⟨Platform.windows, none, some "C:/Users/u", true, true, "", true⟩
      "C:/Users/u").1 rfl rfl rfl,
   (appdata_fallback_and_home_panic
      ⟨Platform.windows, none, none, true, true, "", true⟩ "").2.2 rfl⟩

/-- The release setup path never reads the result of create_dir_all: its
outcome is the same function of the rest of the environment. -/
theorem startRelease_ignores_createDirOk (e : Env) (b : Bool) :
    startRelease { e with createDirOk := b } = startRelease e := by
  cases e with
  | mk p ad hm so sp se co =>
    cases p <;> cases ad <;> cases hm <;> cases so <;> cases sp <;> rfl

/-- C9: failure to create the application-data directory is silently
ignored — the setup outcome (actions taken, log lines, handle storage) is
identical whether create_dir_all succeeds or fails, so no error is logged for
it, and the spawn is still attempted with that directory as working
directory. -/
theorem create_dir_failure_ignored (e : Env) (d : String) :
    startRelease { e with createDirOk := false }
      = startRelease { e with createDirOk := true }
  ∧ (dataDir e = some d → e.sidecarOk = true →
       ∃ rest, startRelease { e with createDirOk := false }
         = Outcome.completed
             ([SetupAction.logged LogLevel.info "生产模式：启动打包的后端服务",
               SetupAction.createdDir d, SetupAction.spawned d] ++ rest)) := by
  constructor
  · rw [startRelease_ignores_createDirOk e false, startRelease_ignores_createDirOk e true]
  · intro hd hs
    rw [startRelease_ignores_createDirOk]
    exact spawn_attempted e d hd hs

/-- Witness for create_dir_failure_ignored: a concrete environment where the
directory creation fails yet the spawn is still attempted in it. -/
theorem create_dir_failure_ignored_witness :
    startRelease ⟨Platform.otherTarget, none, some "/home/u", true, true, "", false⟩
      = startRelease ⟨Platform.otherTarget, none, some "/home/u", true, true, "", true⟩
  ∧ ∃ rest,
      startRelease ⟨Platform.otherTarget, none, some "/home/u", true, true, "", false⟩
        = Outcome.completed
            ([SetupAction.logged LogLevel.info "生产模式：启动打包的后端服务",
              SetupAction.createdDir (pjoin "/home/u" ".document-qa"),
              SetupAction.spawned (pjoin "/home/u" ".document-qa")] ++ rest) :=
  ⟨(create_dir_failure_ignored
      ⟨Platform.otherTarget, none, some "/home/u", true, true, "", true⟩ "").1,
   (create_dir_failure_ignored
      ⟨Platform.otherTarget, none, some "/home/u", true, true, "", true⟩
      (pjoin "/home/u" ".document-qa")).2 rfl rfl⟩
